import Mathlib

/-!
Vorb UI: widget transitions, size bounds and the YAML loader.

A shallow embedding of `include/ui/Widget.h` and `src/ui/UILoader.cpp`.

* `f32` values are only compared and assigned in the code embedded here, so a
  value is modelled by what IEEE-754 comparison can observe of it: not-a-number,
  the two infinities, or a finite number (a rational; `+0` and `-0` compare
  equal and are both `fin 0`).
* A virtual member function whose body is not in `Widget.h` is an argument of
  the member that calls it: it takes the widget and returns it as the call
  leaves it.
* The loader's collaborators (path resolution, file reading, the YAML reader,
  the per-widget entry parsers) are fields of `IOManager` and `EntryParsers`.
* `parseWidget` and the functor of `loadFromYAML` are also given with the world
  their collaborators change (namespace `Effects`), since a failed `parseWidget`
  returns null and what its entry parsers did is seen nowhere else; without
  effects the two forms return the same widget (`parseWidget_lift`,
  `widgetParser_lift`).
-/

namespace Vorb

/-! ## f32 -/

/-- An `f32` as seen by comparison and assignment. -/
inductive F32 where
  | nan : F32
  | negInf : F32
  | fin (q : ℚ) : F32
  | posInf : F32
deriving DecidableEq

namespace F32

/-- The C++ `a < b` on `f32`: false as soon as one side is not a number. -/
def lt : F32 → F32 → Bool
  | nan, _ => false
  | _, nan => false
  | negInf, negInf => false
  | negInf, _ => true
  | fin _, negInf => false
  | fin a, fin b => decide (a < b)
  | fin _, posInf => true
  | posInf, _ => false

/-- The C++ `a <= b` on `f32`: false as soon as one side is not a number. -/
def le : F32 → F32 → Bool
  | nan, _ => false
  | _, nan => false
  | negInf, _ => true
  | fin _, negInf => false
  | fin a, fin b => decide (a ≤ b)
  | fin _, posInf => true
  | posInf, posInf => true
  | posInf, _ => false

/-- The C++ `a > b`. -/
def gt (a b : F32) : Bool := lt b a

/-- The C++ `a >= b`. -/
def ge (a b : F32) : Bool := le b a

/-- The literal `0.0f`. -/
def zero : F32 := fin 0

/-- The constant `FLT_MAX`, which is `(2^24 - 1) * 2^104`. -/
def FLT_MAX : F32 := fin 340282346638528859811704183484516925440

/-- Whether the value is not-a-number. -/
def isNaN : F32 → Bool
  | nan => true
  | _ => false

end F32

/-- The vector type `f32v2`. -/
structure F32v2 where
  x : F32
  y : F32
deriving DecidableEq

/-- The constructor `f32v2(s)`: both components set to `s`. -/
def F32v2.splat (s : F32) : F32v2 := ⟨s, s⟩

/-! ## Lengths -/

/-- Modelled from the spec: the declaration of `UnitType` is not among the
source files; the spec's data model lists pixel, percentage and unitless. -/
inductive UnitType where
  | PIXEL
  | PERCENT
  | UNITLESS
deriving DecidableEq

/-- The type `Length`: `{ value, { unit } }`. -/
structure Length where
  x : F32
  units : UnitType
deriving DecidableEq

/-- The pair of units of a `Length2`. -/
structure Units2 where
  x : UnitType
  y : UnitType
deriving DecidableEq

/-- The type `Length2`: `{ x, y, { unitX, unitY } }`. -/
structure Length2 where
  x : F32
  y : F32
  units : Units2
deriving DecidableEq

/-! ## Transitions (`Widget.h` 76-122) -/

/-- The struct `UITransition`: the fields of `vmath::Transition32_F32` that the
constructors assign, and the two raw lengths. -/
structure UITransition where
  rawInitialLength : Length
  rawFinalLength : Length
  initialLength : F32
  finalLength : F32
  currentTime : F32
  finalTime : F32
  tweeningFunc : Option (F32 → F32 → F32 → F32)

/-- The struct `UITransition2`. -/
structure UITransition2 where
  rawInitialLength : Length2
  rawFinalLength : Length2
  initialLength : F32v2
  finalLength : F32v2
  currentTime : F32
  finalTime : F32
  tweeningFunc : Option (F32v2 → F32v2 → F32 → F32v2)

/-- The default constructor `UITransition()`. -/
def UITransition.ctorDefault : UITransition :=
  { rawInitialLength := ⟨F32.zero, UnitType.PIXEL⟩
    rawFinalLength := ⟨F32.zero, UnitType.PIXEL⟩
    initialLength := F32.zero
    finalLength := F32.zero
    currentTime := F32.zero
    finalTime := F32.zero
    tweeningFunc := none }

/-- The constructor `UITransition(rawInitial, rawFinal, duration, tweeningFunc)`. -/
def UITransition.ctor (_rawInitialLength _rawFinalLength : Length) (duration : F32)
    (_tweeningFunc : Option (F32 → F32 → F32 → F32)) : UITransition :=
  { rawInitialLength := _rawInitialLength
    rawFinalLength := _rawFinalLength
    initialLength := F32.zero
    finalLength := F32.zero
    currentTime := F32.zero
    finalTime := duration
    tweeningFunc := _tweeningFunc }

/-- The default constructor `UITransition2()`. -/
def UITransition2.ctorDefault : UITransition2 :=
  { rawInitialLength := ⟨F32.zero, F32.zero, ⟨UnitType.PIXEL, UnitType.PIXEL⟩⟩
    rawFinalLength := ⟨F32.zero, F32.zero, ⟨UnitType.PIXEL, UnitType.PIXEL⟩⟩
    initialLength := F32v2.splat F32.zero
    finalLength := F32v2.splat F32.zero
    currentTime := F32.zero
    finalTime := F32.zero
    tweeningFunc := none }

/-- The constructor `UITransition2(rawInitial, rawFinal, duration, tweeningFunc)`. -/
def UITransition2.ctor (_rawInitialLength _rawFinalLength : Length2) (duration : F32)
    (_tweeningFunc : Option (F32v2 → F32v2 → F32 → F32v2)) : UITransition2 :=
  { rawInitialLength := _rawInitialLength
    rawFinalLength := _rawFinalLength
    initialLength := F32v2.splat F32.zero
    finalLength := F32v2.splat F32.zero
    currentTime := F32.zero
    finalTime := duration
    tweeningFunc := _tweeningFunc }

/-- The spec's state ACTIVE of a transition: `0 <= currentTime < finalTime`. -/
def UITransition2.isActive (t : UITransition2) : Bool :=
  F32.le F32.zero t.currentTime && F32.lt t.currentTime t.finalTime

/-! ## The widget (`Widget.h` 39-74, 127-326) -/

/-- The enum `WidgetAlign`. -/
inductive WidgetAlign where
  | LEFT | TOP_LEFT | TOP | TOP_RIGHT | RIGHT | BOTTOM_RIGHT | BOTTOM | BOTTOM_LEFT | CENTER
deriving DecidableEq

/-- The enum `PositionType`. -/
inductive PositionType where
  | STATIC | ABSOLUTE | FIXED | RELATIVE
deriving DecidableEq

/-- The enum `DockingStyle`. -/
inductive DockingStyle where
  | NONE | LEFT | TOP | RIGHT | BOTTOM | FILL
deriving DecidableEq

/-- The struct `DockingOptions`. -/
structure DockingOptions where
  style : DockingStyle
  size : Length
deriving DecidableEq

/-- The data members of `Widget` (the pointers to font and renderer and the
anchor, whose type is declared elsewhere, are left out), with the processed
position and dimensions it inherits from its container base class. -/
structure Widget where
  m_position : F32v2
  m_dimensions : F32v2
  m_align : WidgetAlign
  m_dockingOptions : DockingOptions
  m_targetDockingSize : UITransition
  m_processedDockingSize : F32
  m_zIndex : Nat
  m_positionType : PositionType
  m_rawPosition : Length2
  m_targetPosition : UITransition2
  m_relativePosition : F32v2
  m_rawDimensions : Length2
  m_targetDimensions : UITransition2
  m_rawMinSize : Length2
  m_targetMinSize : UITransition2
  m_minSize : F32v2
  m_rawMaxSize : Length2
  m_targetMaxSize : UITransition2
  m_maxSize : F32v2
  m_needsDrawableReload : Bool

/-- A widget with every member at the value its declaration or the default
constructors give it: align `TOP_LEFT`, position type `STATIC`, min size
`(0, 0)`, max size `(FLT_MAX, FLT_MAX)`, no reload pending, and the members
without an initialiser at zero. -/
def Widget.initial : Widget :=
  { m_position := F32v2.splat F32.zero
    m_dimensions := F32v2.splat F32.zero
    m_align := WidgetAlign.TOP_LEFT
    m_dockingOptions := ⟨DockingStyle.NONE, ⟨F32.zero, UnitType.PIXEL⟩⟩
    m_targetDockingSize := UITransition.ctorDefault
    m_processedDockingSize := F32.zero
    m_zIndex := 0
    m_positionType := PositionType.STATIC
    m_rawPosition := ⟨F32.zero, F32.zero, ⟨UnitType.PIXEL, UnitType.PIXEL⟩⟩
    m_targetPosition := UITransition2.ctorDefault
    m_relativePosition := F32v2.splat F32.zero
    m_rawDimensions := ⟨F32.zero, F32.zero, ⟨UnitType.PIXEL, UnitType.PIXEL⟩⟩
    m_targetDimensions := UITransition2.ctorDefault
    m_rawMinSize := ⟨F32.zero, F32.zero, ⟨UnitType.PIXEL, UnitType.PIXEL⟩⟩
    m_targetMinSize := UITransition2.ctorDefault
    m_minSize := F32v2.splat F32.zero
    m_rawMaxSize := ⟨F32.zero, F32.zero, ⟨UnitType.PIXEL, UnitType.PIXEL⟩⟩
    m_targetMaxSize := UITransition2.ctorDefault
    m_maxSize := F32v2.splat F32.FLT_MAX
    m_needsDrawableReload := false }

namespace Widget

/-! ### Getters and queries (lines 207-224) -/

def getTargetPosition (w : Widget) : UITransition2 := w.m_targetPosition
def getTargetDimensions (w : Widget) : UITransition2 := w.m_targetDimensions
def getTargetMinSize (w : Widget) : UITransition2 := w.m_targetMinSize
def getTargetMaxSize (w : Widget) : UITransition2 := w.m_targetMaxSize
def getMinSize (w : Widget) : F32v2 := w.m_minSize
def getMaxSize (w : Widget) : F32v2 := w.m_maxSize
def getRawPosition (w : Widget) : Length2 := w.m_rawPosition
def getRawDimensions (w : Widget) : Length2 := w.m_rawDimensions
def getRawMinSize (w : Widget) : Length2 := w.m_rawMinSize
def getRawMaxSize (w : Widget) : Length2 := w.m_rawMaxSize
def needsDrawableReload (w : Widget) : Bool := w.m_needsDrawableReload

def isPositionTransitioning (w : Widget) : Bool :=
  F32.lt w.m_targetPosition.currentTime w.m_targetPosition.finalTime

def isDimensionsTransitioning (w : Widget) : Bool :=
  F32.lt w.m_targetDimensions.currentTime w.m_targetDimensions.finalTime

def isMaxSizeTransitioning (w : Widget) : Bool :=
  F32.lt w.m_targetMaxSize.currentTime w.m_targetMaxSize.finalTime

def isMinSizeTransitioning (w : Widget) : Bool :=
  F32.lt w.m_targetMinSize.currentTime w.m_targetMinSize.finalTime

/-! ### Setters (lines 242-262) -/

def setTargetPosition (updateTargetPosition : Widget → Widget) (w : Widget)
    (targetPosition : UITransition2) (update : Bool) : Widget :=
  let w1 := { w with m_targetPosition := targetPosition }
  if update then updateTargetPosition w1 else w1

def setTargetDimensions (updateTargetDimensions : Widget → Widget) (w : Widget)
    (targetDimensions : UITransition2) (update : Bool) : Widget :=
  let w1 := { w with m_targetDimensions := targetDimensions }
  if update then updateTargetDimensions w1 else w1

def setTargetMaxSize (updateTargetMaxSize : Widget → Widget) (w : Widget)
    (targetMaxSize : UITransition2) (update : Bool) : Widget :=
  let w1 := { w with m_targetMaxSize := targetMaxSize }
  if update then updateTargetMaxSize w1 else w1

def setTargetMinSize (updateTargetMinSize : Widget → Widget) (w : Widget)
    (targetMinSize : UITransition2) (update : Bool) : Widget :=
  let w1 := { w with m_targetMinSize := targetMinSize }
  if update then updateTargetMinSize w1 else w1

/-- The member `updateMaxSize` (line 278). -/
def updateMaxSize (processRawValues : Widget → Length2 → F32v2)
    (updateDimensionState : Widget → Widget) (w : Widget) : Widget :=
  updateDimensionState { w with m_maxSize := processRawValues w w.m_rawMaxSize }

/-- The member `updateMinSize` (line 282). -/
def updateMinSize (processRawValues : Widget → Length2 → F32v2)
    (updateDimensionState : Widget → Widget) (w : Widget) : Widget :=
  updateDimensionState { w with m_minSize := processRawValues w w.m_rawMinSize }

/-- The member `setRawMaxSize(const Length2&)` (line 251). -/
def setRawMaxSize (processRawValues : Widget → Length2 → F32v2)
    (updateDimensionState : Widget → Widget) (w : Widget) (maxSize : Length2) : Widget :=
  updateMaxSize processRawValues updateDimensionState { w with m_rawMaxSize := maxSize }

/-- The member `setRawMinSize(const Length2&)` (line 257). -/
def setRawMinSize (processRawValues : Widget → Length2 → F32v2)
    (updateDimensionState : Widget → Widget) (w : Widget) (minSize : Length2) : Widget :=
  updateMinSize processRawValues updateDimensionState { w with m_rawMinSize := minSize }

/-! ### The members defined outside `Widget.h` -/

/-- Modelled from the spec: the clamp of section 4.4, step 5 ("Clamp dimensions
into [minSize, maxSize] component-wise"), on one component: a value below the
minimum becomes the minimum, otherwise a value above the maximum becomes the
maximum. The body of `applyMinMaxSizesToDimensions` is not among the source
files. -/
def clampComponent (d lo hi : F32) : F32 :=
  if F32.lt d lo then lo else if F32.gt d hi then hi else d

/-- Modelled from the spec: `applyMinMaxSizesToDimensions` (declared at line
299, body not among the source files), the component-wise clamp of the given
dimensions into the widget's processed min and max size. -/
def applyMinMaxSizesToDimensions (w : Widget) (dimensions : F32v2) : F32v2 :=
  ⟨clampComponent dimensions.x w.m_minSize.x w.m_maxSize.x,
   clampComponent dimensions.y w.m_minSize.y w.m_maxSize.y⟩

/-- Modelled from the spec: `updateSpatialState` (declared at line 185, body not
among the source files), the recalculation of section 4.4. Steps 1 to 4
(docking, unit resolution, relative shift, alignment) need the parent and are
the argument `layout`, which gives the position and the unclamped dimensions;
step 5 clamps the dimensions with `applyMinMaxSizesToDimensions`; step 6 flags
a drawable reload when the rectangle changed. -/
def updateSpatialState (layout : Widget → F32v2 × F32v2) (w : Widget) : Widget :=
  let position := (layout w).1
  let dimensions := applyMinMaxSizesToDimensions w (layout w).2
  { w with
    m_position := position
    m_dimensions := dimensions
    m_needsDrawableReload :=
      w.m_needsDrawableReload || decide (position ≠ w.m_position)
        || decide (dimensions ≠ w.m_dimensions) }

/-- Modelled from the spec: the length unit resolver of section 4.1 on a pair
of lengths in pixels or unitless ("PIXEL: returns raw.value unchanged", "any
unrecognized/default unit: treated as PIXEL"); a percentage needs the reference
dimension and float arithmetic and is resolved by the argument `percent`. The
body of `processRawValues` is not among the source files. -/
def processRawValues (percent : Widget → F32 → F32) (w : Widget) (rawValues : Length2) : F32v2 :=
  ⟨if rawValues.units.x = UnitType.PERCENT then percent w rawValues.x else rawValues.x,
   if rawValues.units.y = UnitType.PERCENT then percent w rawValues.y else rawValues.y⟩

/-- Modelled from the spec: what starting a transition does to it (section 4.2:
"Starting a new transition (`setTarget*`) resets `currentTime = 0`, records
`initial` = the widget's current processed value, `final` = resolved target"),
the resolution being that of `processRawValues` on the raw final length at this
moment. The duration `finalTime` and the raw lengths stay as given. The bodies
of the four `updateTarget...` members are not among the source files. -/
def startTransition (processRawValues : Widget → Length2 → F32v2) (w : Widget)
    (current : F32v2) (t : UITransition2) : UITransition2 :=
  { t with
    currentTime := F32.zero
    initialLength := current
    finalLength := processRawValues w t.rawFinalLength }

/-- Modelled from the spec: `updateTargetPosition` (declared at line 272, body
not among the source files) starts the stored target position from the
processed position, as section 4.2 says of `setTarget*`. -/
def updateTargetPosition (processRawValues : Widget → Length2 → F32v2) (w : Widget) : Widget :=
  { w with
    m_targetPosition := startTransition processRawValues w w.m_position w.m_targetPosition }

/-- Modelled from the spec: `updateTargetDimensions` (declared at line 276, body
not among the source files) starts the stored target dimensions from the
processed dimensions, as section 4.2 says of `setTarget*`. -/
def updateTargetDimensions (processRawValues : Widget → Length2 → F32v2) (w : Widget) :
    Widget :=
  { w with
    m_targetDimensions :=
      startTransition processRawValues w w.m_dimensions w.m_targetDimensions }

/-- Modelled from the spec: `updateTargetMaxSize` (declared at line 280, body
not among the source files) starts the stored target max size from the
processed max size, as section 4.2 says of `setTarget*`. -/
def updateTargetMaxSize (processRawValues : Widget → Length2 → F32v2) (w : Widget) : Widget :=
  { w with
    m_targetMaxSize := startTransition processRawValues w w.m_maxSize w.m_targetMaxSize }

/-- Modelled from the spec: `updateTargetMinSize` (declared at line 284, body
not among the source files) starts the stored target min size from the
processed min size, as section 4.2 says of `setTarget*`. -/
def updateTargetMinSize (processRawValues : Widget → Length2 → F32v2) (w : Widget) : Widget :=
  { w with
    m_targetMinSize := startTransition processRawValues w w.m_minSize w.m_targetMinSize }

/-- Modelled from the spec: steps 1 to 4 of section 4.4 for a widget without a
parent ("falls back to treating itself as root ..., i.e., absolute raw values
only"), undocked and aligned top-left: the raw position and raw dimensions. -/
def layoutRoot (w : Widget) : F32v2 × F32v2 :=
  (⟨w.m_rawPosition.x, w.m_rawPosition.y⟩, ⟨w.m_rawDimensions.x, w.m_rawDimensions.y⟩)

/-- The invariant of the spec's data model: `minSize <= dimensions <= maxSize`
component-wise, on the processed values. -/
def dimensionsWithinBounds (w : Widget) : Bool :=
  F32.le w.m_minSize.x w.m_dimensions.x && F32.le w.m_dimensions.x w.m_maxSize.x
    && F32.le w.m_minSize.y w.m_dimensions.y && F32.le w.m_dimensions.y w.m_maxSize.y

end Widget

/-! ## The loader (`UILoader.cpp`) -/

/-- Modelled from the spec: the kinds of node of the "textual tree description"
the loader reads. The declaration of `keg::NodeType` is not among the source
files; the loader only compares a node's type with `MAP`. -/
inductive NodeType where
  | NONE | VALUE | SEQUENCE | MAP
deriving DecidableEq

/-- Modelled from the spec: a node of the "textual tree description". The
declaration of `keg::Node` is not among the source files; a map holds its
entries, key and value, in document order. -/
inductive Node where
  | none : Node
  | value (text : String) : Node
  | sequence (items : List Node) : Node
  | map (entries : List (String × Node)) : Node

/-- The function `keg::getType`. -/
def getType : Node → NodeType
  | Node.none => NodeType.NONE
  | Node.value _ => NodeType.VALUE
  | Node.sequence _ => NodeType.SEQUENCE
  | Node.map _ => NodeType.MAP

/-- The reader's `forAllInMap`, whose body is not among the source files. By the
comments at its two call sites ("For each entry in the map, ...") it invokes
the delegate once on each entry of the map, in document order; what the
delegate captures by reference is the state `st` threaded through the calls. -/
def forAllInMap {β : Type} (node : Node) (processEntry : β → String → Node → β) (st : β) : β :=
  match node with
  | Node.map entries => entries.foldl (fun acc e => processEntry acc e.1 e.2) st
  | _ => st

/-- The widget classes the loader instantiates. -/
inductive WidgetKind where
  | Button | CheckBox | ComboBox | Label | Panel | Slider | WidgetList
deriving DecidableEq

/-- A widget behind an `IWidget*`: its class, fixed when it is constructed, and
its contents, which the entry parsers mutate. -/
structure IWidget (σ : Type) where
  kind : WidgetKind
  contents : σ

/-- The delegate type `UILoader::WidgetParser`: from a type string and a node to
a widget, or null. -/
abbrev WidgetParser (σ : Type) := String → Node → Option (IWidget σ)

/-- The functions the loader calls and that are defined in other files: the
widget constructors, `init`, and the entry parsers. An entry parser receives the
custom parser pointer (null is `none`), the object it fills, the key and the
value, and returns its verdict with the object as it leaves it. The read context
and the texture cache, passed through unchanged, are left out. -/
structure EntryParsers (σ ν : Type) where
  construct : WidgetKind → σ
  init : σ → String → σ
  parseButtonEntry : Option (WidgetParser σ) → σ → String → Node → Bool × σ
  parseCheckBoxEntry : Option (WidgetParser σ) → σ → String → Node → Bool × σ
  parseComboBoxEntry : Option (WidgetParser σ) → σ → String → Node → Bool × σ
  parseLabelEntry : Option (WidgetParser σ) → σ → String → Node → Bool × σ
  parsePanelEntry : Option (WidgetParser σ) → σ → String → Node → Bool × σ
  parseSliderEntry : Option (WidgetParser σ) → σ → String → Node → Bool × σ
  parseWidgetListEntry : Option (WidgetParser σ) → σ → String → Node → Bool × σ
  parseWidgetEntry : Option (WidgetParser σ) → ν → String → Node → Bool × ν

/-- The body of the `processEntry` lambdas: `success = success && parse(...)`.
The state is the flag `success` and the object being filled; `&&` does not
evaluate its right side once `success` is false. -/
def processEntry {τ : Type} (parse : τ → String → Node → Bool × τ) (acc : Bool × τ)
    (key : String) (value : Node) : Bool × τ :=
  if acc.1 then parse acc.2 key value else (false, acc.2)

/-- Lines 83-91 of `parseWidget`, common to the seven branches: `init("")`, the
iteration over the map, and the test of `success`. -/
def parseWidgetEntries {σ ν : Type} (E : EntryParsers σ ν) (kind : WidgetKind)
    (parse : σ → String → Node → Bool × σ) (node : Node) : Option (IWidget σ) :=
  let widget := E.init (E.construct kind) ""
  let r := forAllInMap node (processEntry parse) (true, widget)
  if r.1 then some ⟨kind, r.2⟩ else none

/-- The function `parseWidget` (lines 37-92). -/
def parseWidget {σ ν : Type} (E : EntryParsers σ ν) (type : String) (node : Node)
    (parser : Option (WidgetParser σ)) : Option (IWidget σ) :=
  if getType node ≠ NodeType.MAP then none
  else if type = "button" then
    parseWidgetEntries E WidgetKind.Button (E.parseButtonEntry parser) node
  else if type = "checkbox" then
    parseWidgetEntries E WidgetKind.CheckBox (E.parseCheckBoxEntry parser) node
  else if type = "combobox" then
    parseWidgetEntries E WidgetKind.ComboBox (E.parseComboBoxEntry parser) node
  else if type = "label" then
    parseWidgetEntries E WidgetKind.Label (E.parseLabelEntry parser) node
  else if type = "panel" then
    parseWidgetEntries E WidgetKind.Panel (E.parsePanelEntry parser) node
  else if type = "slider" then
    parseWidgetEntries E WidgetKind.Slider (E.parseSliderEntry parser) node
  else if type = "widget_list" then
    parseWidgetEntries E WidgetKind.WidgetList (E.parseWidgetListEntry parser) node
  else none

/-- The function `parseViewport` (lines 94-106): the verdict, and the viewport
as the entry parsers leave it. -/
def parseViewport {σ ν : Type} (E : EntryParsers σ ν) (viewport : ν) (node : Node)
    (parser : Option (WidgetParser σ)) : Bool × ν :=
  if getType node ≠ NodeType.MAP then (false, viewport)
  else forAllInMap node (processEntry (E.parseWidgetEntry parser)) (true, viewport)

/-- What one call of the `widgetParser` functor does: the widget it returns, and
the calls the functor itself made to the custom parser, each with the type and
node it passed. (The entry parsers are handed the same pointer; what they do
with it is theirs.) -/
structure ParserOutcome (σ : Type) where
  widget : Option (IWidget σ)
  customCalls : List (String × Node)

/-- The functor `widgetParser` of `loadFromYAML` (lines 128-134). -/
def widgetParser {σ ν : Type} (E : EntryParsers σ ν)
    (customWidgetParser : Option (WidgetParser σ)) (type : String) (node : Node) :
    ParserOutcome σ :=
  match parseWidget E type node customWidgetParser with
  | some widget => ⟨some widget, []⟩
  | Option.none =>
    match customWidgetParser with
    | some custom => ⟨custom type node, [(type, node)]⟩
    | Option.none => ⟨Option.none, []⟩

/-- The two members of `vio::IOManager` the loader calls: `resolvePath` gives
the resolved path or fails; `readFileToString` takes the path and the string to
fill and gives the string as the call leaves it. -/
structure IOManager where
  resolvePath : String → Option String
  readFileToString : String → String → String

/-- The member `UILoader::loadFromYAML` (lines 110-143). `getFirst` is the
reader initialised on the data and asked for its first node. -/
def loadFromYAML {σ ν : Type} (E : EntryParsers σ ν) (getFirst : String → Node)
    (iom : IOManager) (filepath : String) (viewport : ν)
    (customWidgetParser : Option (WidgetParser σ)) : Bool × ν :=
  match iom.resolvePath filepath with
  | Option.none => (false, viewport)
  | some path =>
    let data := iom.readFileToString path ""
    if data = "" then (false, viewport)
    else
      let node := getFirst data
      parseViewport E viewport node
        (some (fun type n => (widgetParser E customWidgetParser type n).widget))

/-! ### The loader with the effects of its collaborators

`parseWidget` deletes the widget when an entry fails, and the functor of
`loadFromYAML` calls the custom parser after `parseWidget`: what the entry
parsers and the custom parser did is then seen only in what they changed
outside the widget. Here that is the world, which every call of a collaborator
takes and returns: the read context, the texture cache, and whatever the custom
parser captures. -/

namespace Effects

/-- The delegate type `UILoader::WidgetParser` with its effects: from a type
string, a node and the world to a widget, or null, and the world as the call
leaves it. -/
abbrev WidgetParser (ω σ : Type) := String → Node → ω → Option (IWidget σ) × ω

/-- The widget constructors, `init`, and the seven entry parsers that
`parseWidget` calls, with their effects. An entry parser receives the custom
parser pointer (null is `none`), the widget it fills together with the world,
the key and the value, and returns its verdict with the widget and the world as
it leaves them. -/
structure EntryParsers (ω σ : Type) where
  construct : WidgetKind → σ
  init : σ → String → σ
  parseButtonEntry : Option (WidgetParser ω σ) → σ × ω → String → Node → Bool × (σ × ω)
  parseCheckBoxEntry : Option (WidgetParser ω σ) → σ × ω → String → Node → Bool × (σ × ω)
  parseComboBoxEntry : Option (WidgetParser ω σ) → σ × ω → String → Node → Bool × (σ × ω)
  parseLabelEntry : Option (WidgetParser ω σ) → σ × ω → String → Node → Bool × (σ × ω)
  parsePanelEntry : Option (WidgetParser ω σ) → σ × ω → String → Node → Bool × (σ × ω)
  parseSliderEntry : Option (WidgetParser ω σ) → σ × ω → String → Node → Bool × (σ × ω)
  parseWidgetListEntry : Option (WidgetParser ω σ) → σ × ω → String → Node → Bool × (σ × ω)

/-- Lines 83-91 of `parseWidget`, common to the seven branches: `init("")`, the
iteration over the map with the `processEntry` lambda, and the test of
`success`; on failure the widget is deleted and null returned. The world is
returned as the iteration leaves it in both cases. -/
def parseWidgetEntries {ω σ : Type} (E : EntryParsers ω σ) (kind : WidgetKind)
    (parse : σ × ω → String → Node → Bool × (σ × ω)) (node : Node) (world : ω) :
    Option (IWidget σ) × ω :=
  let widget := E.init (E.construct kind) ""
  let r := forAllInMap node (processEntry parse) (true, (widget, world))
  if r.1 then (some ⟨kind, r.2.1⟩, r.2.2) else (none, r.2.2)

/-- The function `parseWidget` (lines 37-92), with the world. -/
def parseWidget {ω σ : Type} (E : EntryParsers ω σ) (type : String) (node : Node)
    (parser : Option (WidgetParser ω σ)) (world : ω) : Option (IWidget σ) × ω :=
  if getType node ≠ NodeType.MAP then (none, world)
  else if type = "button" then
    parseWidgetEntries E WidgetKind.Button (E.parseButtonEntry parser) node world
  else if type = "checkbox" then
    parseWidgetEntries E WidgetKind.CheckBox (E.parseCheckBoxEntry parser) node world
  else if type = "combobox" then
    parseWidgetEntries E WidgetKind.ComboBox (E.parseComboBoxEntry parser) node world
  else if type = "label" then
    parseWidgetEntries E WidgetKind.Label (E.parseLabelEntry parser) node world
  else if type = "panel" then
    parseWidgetEntries E WidgetKind.Panel (E.parsePanelEntry parser) node world
  else if type = "slider" then
    parseWidgetEntries E WidgetKind.Slider (E.parseSliderEntry parser) node world
  else if type = "widget_list" then
    parseWidgetEntries E WidgetKind.WidgetList (E.parseWidgetListEntry parser) node world
  else (none, world)

/-- The functor `widgetParser` of `loadFromYAML` (lines 128-134), with the
world: `parseWidget` first, with the custom parser as its parser argument; when
it returns null and there is a custom parser, the custom parser is invoked on
the same type and node, in the world `parseWidget` left. -/
def widgetParser {ω σ : Type} (E : EntryParsers ω σ)
    (customWidgetParser : Option (WidgetParser ω σ)) (type : String) (node : Node)
    (world : ω) : Option (IWidget σ) × ω :=
  match parseWidget E type node customWidgetParser world with
  | (some widget, world1) => (some widget, world1)
  | (Option.none, world1) =>
    match customWidgetParser with
    | some custom => custom type node world1
    | Option.none => (Option.none, world1)

/-- The entry parser of a widget class. -/
def EntryParsers.entryParser {ω σ : Type} (E : EntryParsers ω σ) :
    WidgetKind → Option (WidgetParser ω σ) → σ × ω → String → Node → Bool × (σ × ω)
  | WidgetKind.Button => E.parseButtonEntry
  | WidgetKind.CheckBox => E.parseCheckBoxEntry
  | WidgetKind.ComboBox => E.parseComboBoxEntry
  | WidgetKind.Label => E.parseLabelEntry
  | WidgetKind.Panel => E.parsePanelEntry
  | WidgetKind.Slider => E.parseSliderEntry
  | WidgetKind.WidgetList => E.parseWidgetListEntry

end Effects

/-- A widget parser without effects as one with effects, on the world with a
single state. -/
def liftParser {σ : Type} (parser : WidgetParser σ) : Effects.WidgetParser Unit σ :=
  fun type node _ => (parser type node, ())

/-- A widget parser on the world with a single state as one without effects. -/
def lowerParser {σ : Type} (parser : Effects.WidgetParser Unit σ) : WidgetParser σ :=
  fun type node => (parser type node ()).1

/-- An entry parser without effects as one with effects, on the world with a
single state. -/
def liftEntryParser {σ : Type}
    (parse : Option (WidgetParser σ) → σ → String → Node → Bool × σ)
    (parser : Option (Effects.WidgetParser Unit σ)) (st : σ × Unit) (key : String)
    (value : Node) : Bool × (σ × Unit) :=
  ((parse (parser.map lowerParser) st.1 key value).1,
    ((parse (parser.map lowerParser) st.1 key value).2, ()))

/-- Entry parsers without effects as entry parsers with effects, on the world
with a single state. -/
def liftParsers {σ ν : Type} (P : EntryParsers σ ν) : Effects.EntryParsers Unit σ :=
  { construct := P.construct
    init := P.init
    parseButtonEntry := liftEntryParser P.parseButtonEntry
    parseCheckBoxEntry := liftEntryParser P.parseCheckBoxEntry
    parseComboBoxEntry := liftEntryParser P.parseComboBoxEntry
    parseLabelEntry := liftEntryParser P.parseLabelEntry
    parsePanelEntry := liftEntryParser P.parsePanelEntry
    parseSliderEntry := liftEntryParser P.parseSliderEntry
    parseWidgetListEntry := liftEntryParser P.parseWidgetListEntry }

/-! ### The specification's words, for comparison with the code -/

/-- The seven type strings and the class each names. -/
def widgetTypeNames : List (String × WidgetKind) :=
  [("button", WidgetKind.Button), ("checkbox", WidgetKind.CheckBox),
   ("combobox", WidgetKind.ComboBox), ("label", WidgetKind.Label),
   ("panel", WidgetKind.Panel), ("slider", WidgetKind.Slider),
   ("widget_list", WidgetKind.WidgetList)]

/-- The class a type string names, if it is exactly one of the seven. -/
def kindOfType (type : String) : Option WidgetKind :=
  widgetTypeNames.lookup type

/-- The entry parser of a widget class. -/
def EntryParsers.entryParser {σ ν : Type} (E : EntryParsers σ ν) :
    WidgetKind → Option (WidgetParser σ) → σ → String → Node → Bool × σ
  | WidgetKind.Button => E.parseButtonEntry
  | WidgetKind.CheckBox => E.parseCheckBoxEntry
  | WidgetKind.ComboBox => E.parseComboBoxEntry
  | WidgetKind.Label => E.parseLabelEntry
  | WidgetKind.Panel => E.parsePanelEntry
  | WidgetKind.Slider => E.parseSliderEntry
  | WidgetKind.WidgetList => E.parseWidgetListEntry

/-- An entry parser "succeeds on every entry": run on the entries in order, each
on the object as the previous one left it, every call returns true. -/
def succeedsOnEvery {τ : Type} (parse : τ → String → Node → Bool × τ) :
    τ → List (String × Node) → Bool
  | _, [] => true
  | s, e :: rest => (parse s e.1 e.2).1 && succeedsOnEvery parse (parse s e.1 e.2).2 rest

/-- The object after the entry parser has been called on each of the given
entries, in order, each call on the object as the previous call left it,
whatever the verdicts. -/
def calledOnEach {τ : Type} (parse : τ → String → Node → Bool × τ) :
    τ → List (String × Node) → τ
  | s, [] => s
  | s, e :: rest => calledOnEach parse (parse s e.1 e.2).2 rest

/-! ## Sample inputs -/

/-- A length pair in pixels. -/
def pixels (x y : ℚ) : Length2 := ⟨F32.fin x, F32.fin y, ⟨UnitType.PIXEL, UnitType.PIXEL⟩⟩

/-- A transition half-way through: built for a duration of 2, then advanced to
`currentTime = 1`. -/
def midwayTransition : UITransition2 :=
  { UITransition2.ctor (pixels 0 0) (pixels 10 10) (F32.fin 2) none with currentTime := F32.fin 1 }

/-- A transition whose clock was set below zero: built for a duration of 1,
then `currentTime = -1`. -/
def rewoundTransition : UITransition2 :=
  { UITransition2.ctor (pixels 0 0) (pixels 10 10) (F32.fin 1) none with
    currentTime := F32.fin (-1) }

/-- A transition that has run its course: built for a duration of 2, with
`currentTime = 2`. -/
def completedTransition : UITransition2 :=
  { UITransition2.ctor (pixels 0 0) (pixels 10 10) (F32.fin 2) none with currentTime := F32.fin 2 }

/-- The resolver of a root widget whose lengths are all in pixels. -/
def processRawValuesRoot : Widget → Length2 → F32v2 :=
  Widget.processRawValues (fun _ value => value)

/-- A root widget asked for 75 by 75 pixels, then given a minimum size of 100
by 100 and a maximum size of 50 by 50 through the setters, each of which
recalculates the dimensions. -/
def invertedBoundsWidget : Widget :=
  Widget.setRawMaxSize processRawValuesRoot (Widget.updateSpatialState Widget.layoutRoot)
    (Widget.setRawMinSize processRawValuesRoot (Widget.updateSpatialState Widget.layoutRoot)
      { Widget.initial with m_rawDimensions := pixels 75 75 } (pixels 100 100))
    (pixels 50 50)

/-- A root widget asked for 75 by 75 pixels, with a minimum size of 20 by 80
and a maximum size of 60 by 90 set through the setters. -/
def boundedWidget : Widget :=
  Widget.setRawMaxSize processRawValuesRoot (Widget.updateSpatialState Widget.layoutRoot)
    (Widget.setRawMinSize processRawValuesRoot (Widget.updateSpatialState Widget.layoutRoot)
      { Widget.initial with m_rawDimensions := pixels 75 75 } (pixels 20 80))
    (pixels 60 90)

/-- An entry parser that records the keys it is given and rejects the key
`"bad"`. -/
def keyRecorder (_ : Option (WidgetParser (List String))) (seen : List String) (key : String)
    (_ : Node) : Bool × List String :=
  (key != "bad", seen ++ [key])

/-- Entry parsers for the sample inputs: every one is `keyRecorder`; a widget
starts with no key recorded. -/
def sampleParsers : EntryParsers (List String) (List String) :=
  { construct := fun _ => []
    init := fun contents _ => contents
    parseButtonEntry := keyRecorder
    parseCheckBoxEntry := keyRecorder
    parseComboBoxEntry := keyRecorder
    parseLabelEntry := keyRecorder
    parsePanelEntry := keyRecorder
    parseSliderEntry := keyRecorder
    parseWidgetListEntry := keyRecorder
    parseWidgetEntry := keyRecorder }

/-- A map node with the two entries `text` and `width`. -/
def sampleMap : Node :=
  Node.map [("text", Node.value "OK"), ("width", Node.value "40")]

/-- An IO manager that resolves the one path `ui.yml` and reads a one-line
document from it. -/
def sampleIOManager : IOManager :=
  { resolvePath := fun filepath => if filepath = "ui.yml" then some "/data/ui.yml" else none
    readFileToString := fun path data => if path = "/data/ui.yml" then "text: OK" else data }

/-- A transition in flight, other than `midwayTransition`: built for a duration
of 5. -/
def freshTransition : UITransition2 :=
  UITransition2.ctor (pixels 0 0) (pixels 30 40) (F32.fin 5) none

/-- A widget whose dimensions are half-way through a transition and whose other
three targets are at rest. -/
def resizingWidget : Widget :=
  Widget.setTargetDimensions id Widget.initial midwayTransition false

/-- A map node whose second entry, of three, has the key `"bad"`, which the
sample entry parsers reject. -/
def rejectedMap : Node :=
  Node.map [("text", Node.value "OK"), ("bad", Node.value "?"), ("width", Node.value "40")]

/-- An entry parser with effects: it writes the key in the widget and each of
its calls, key and value, in the world, and rejects the key `"bad"`. -/
def callWriter (_ : Option (Effects.WidgetParser (List (String × Node)) (List String)))
    (st : List String × List (String × Node)) (key : String) (value : Node) :
    Bool × (List String × List (String × Node)) :=
  (key != "bad", (st.1 ++ [key], st.2 ++ [(key, value)]))

/-- Entry parsers with effects whose world is the list of the calls they have
received. -/
def callWritingParsers : Effects.EntryParsers (List (String × Node)) (List String) :=
  { construct := fun _ => []
    init := fun contents _ => contents
    parseButtonEntry := callWriter
    parseCheckBoxEntry := callWriter
    parseComboBoxEntry := callWriter
    parseLabelEntry := callWriter
    parsePanelEntry := callWriter
    parseSliderEntry := callWriter
    parseWidgetListEntry := callWriter }

/-- A viewport entry parser that writes each of its calls in the viewport and
rejects the key `"bad"`. -/
def viewportCallWriter (_ : Option (WidgetParser (List String)))
    (seen : List (String × Node)) (key : String) (value : Node) :
    Bool × List (String × Node) :=
  (key != "bad", seen ++ [(key, value)])

/-- The sample entry parsers with `viewportCallWriter` for the viewport. -/
def viewportWritingParsers : EntryParsers (List String) (List (String × Node)) :=
  { construct := fun _ => []
    init := fun contents _ => contents
    parseButtonEntry := keyRecorder
    parseCheckBoxEntry := keyRecorder
    parseComboBoxEntry := keyRecorder
    parseLabelEntry := keyRecorder
    parsePanelEntry := keyRecorder
    parseSliderEntry := keyRecorder
    parseWidgetListEntry := keyRecorder
    parseWidgetEntry := viewportCallWriter }

theorem F32.lt_eq_false_of_ge (a b : F32) (h : F32.ge a b = true) : F32.lt a b = false := by
  cases a <;> cases b <;> simp_all [F32.ge, F32.le, F32.lt]

theorem F32.zero_lt_eq_false_of_lt_zero (d : F32) (h : F32.lt d F32.zero = true) :
    F32.lt F32.zero d = false := by
  cases d <;> simp_all [F32.lt, F32.zero]
  exact le_of_lt h

theorem F32.lt_irrefl (a : F32) : F32.lt a a = false := by
  cases a <;> simp [F32.lt]

/-! ## Transitions: the queries, the constructors, the setters -/

/-- C1, as the claim states it, fails: a widget whose target position has
`currentTime = -1` and `finalTime = 1` reports that its position is
transitioning, and the transition is not in the state ACTIVE, which asks for
`0 <= currentTime`. -/
theorem isPositionTransitioning_not_active :
    Widget.isPositionTransitioning
        (Widget.setTargetPosition id Widget.initial rewoundTransition false) = true
      ∧ (Widget.getTargetPosition
          (Widget.setTargetPosition id Widget.initial rewoundTransition false)).isActive
        = false := by
  decide

/-- C1, amended: each of the four queries returns true exactly when the
quantity's transition has `currentTime < finalTime`; when moreover
`0 <= currentTime`, that is exactly the state ACTIVE. -/
theorem isTransitioning_iff_lt (w : Widget) :
    (w.isPositionTransitioning = true
        ↔ F32.lt w.getTargetPosition.currentTime w.getTargetPosition.finalTime = true)
      ∧ (w.isDimensionsTransitioning = true
        ↔ F32.lt w.getTargetDimensions.currentTime w.getTargetDimensions.finalTime = true)
      ∧ (w.isMinSizeTransitioning = true
        ↔ F32.lt w.getTargetMinSize.currentTime w.getTargetMinSize.finalTime = true)
      ∧ (w.isMaxSizeTransitioning = true
        ↔ F32.lt w.getTargetMaxSize.currentTime w.getTargetMaxSize.finalTime = true)
      ∧ (F32.le F32.zero w.getTargetPosition.currentTime = true →
          (w.isPositionTransitioning = true ↔ w.getTargetPosition.isActive = true))
      ∧ (F32.le F32.zero w.getTargetDimensions.currentTime = true →
          (w.isDimensionsTransitioning = true ↔ w.getTargetDimensions.isActive = true))
      ∧ (F32.le F32.zero w.getTargetMinSize.currentTime = true →
          (w.isMinSizeTransitioning = true ↔ w.getTargetMinSize.isActive = true))
      ∧ (F32.le F32.zero w.getTargetMaxSize.currentTime = true →
          (w.isMaxSizeTransitioning = true ↔ w.getTargetMaxSize.isActive = true)) := by
  refine ⟨Iff.rfl, Iff.rfl, Iff.rfl, Iff.rfl, ?_, ?_, ?_, ?_⟩ <;>
    · intro h
      simp [Widget.isPositionTransitioning, Widget.isDimensionsTransitioning,
        Widget.isMinSizeTransitioning, Widget.isMaxSizeTransitioning,
        UITransition2.isActive, Widget.getTargetPosition, Widget.getTargetDimensions,
        Widget.getTargetMinSize, Widget.getTargetMaxSize] at h ⊢
      simp [h]

/-- The amended C1 at a widget whose target position was built for a duration
of 2 and has advanced to 1: the clock is not negative, the query and the state
ACTIVE agree, and both are true. -/
theorem isTransitioning_iff_lt_witness :
    F32.le F32.zero
        (Widget.setTargetPosition id Widget.initial midwayTransition
          false).getTargetPosition.currentTime = true
      ∧ ((Widget.setTargetPosition id Widget.initial midwayTransition
            false).isPositionTransitioning = true
          ↔ (Widget.setTargetPosition id Widget.initial midwayTransition
            false).getTargetPosition.isActive = true)
      ∧ (Widget.setTargetPosition id Widget.initial midwayTransition
            false).isPositionTransitioning = true :=
  ⟨by decide,
   (isTransitioning_iff_lt
      (Widget.setTargetPosition id Widget.initial midwayTransition false)).2.2.2.2.1
      (by decide),
   by decide⟩

/-- C2, as the claim states it, fails: the four-argument constructors given the
duration `-1` build a transition whose `finalTime` is `-1`, not `0`. -/
theorem ctor_negative_duration_finalTime :
    (UITransition.ctor ⟨F32.zero, UnitType.PIXEL⟩ ⟨F32.fin 10, UnitType.PIXEL⟩ (F32.fin (-1))
        none).finalTime = F32.fin (-1)
      ∧ (UITransition2.ctor (pixels 0 0) (pixels 10 10) (F32.fin (-1)) none).finalTime
        = F32.fin (-1)
      ∧ F32.fin (-1) ≠ F32.zero
      ∧ F32.lt (UITransition2.ctor (pixels 0 0) (pixels 10 10) (F32.fin (-1)) none).finalTime
          F32.zero = true := by
  decide

/-- C2, amended: the four-argument constructors store the duration as
`finalTime` whatever its sign, with `currentTime = 0`; a transition built with
a negative duration and stored in a widget without an update is not reported as
transitioning by any of the four queries. -/
theorem ctor_finalTime_eq_duration (a b : Length) (a2 b2 : Length2) (d : F32)
    (f : Option (F32 → F32 → F32 → F32)) (f2 : Option (F32v2 → F32v2 → F32 → F32v2))
    (upd : Widget → Widget) (w : Widget) :
    (UITransition.ctor a b d f).finalTime = d
      ∧ (UITransition2.ctor a2 b2 d f2).finalTime = d
      ∧ (UITransition.ctor a b d f).currentTime = F32.zero
      ∧ (UITransition2.ctor a2 b2 d f2).currentTime = F32.zero
      ∧ (F32.lt d F32.zero = true →
          (Widget.setTargetPosition upd w (UITransition2.ctor a2 b2 d f2)
              false).isPositionTransitioning = false
            ∧ (Widget.setTargetDimensions upd w (UITransition2.ctor a2 b2 d f2)
              false).isDimensionsTransitioning = false
            ∧ (Widget.setTargetMinSize upd w (UITransition2.ctor a2 b2 d f2)
              false).isMinSizeTransitioning = false
            ∧ (Widget.setTargetMaxSize upd w (UITransition2.ctor a2 b2 d f2)
              false).isMaxSizeTransitioning = false) := by
  refine ⟨rfl, rfl, rfl, rfl, fun h => ?_⟩
  have h0 := F32.zero_lt_eq_false_of_lt_zero d h
  exact ⟨h0, h0, h0, h0⟩

/-- The amended C2 at the duration `-1`. -/
theorem ctor_finalTime_eq_duration_witness :
    F32.lt (F32.fin (-1)) F32.zero = true
      ∧ (Widget.setTargetPosition id Widget.initial
          (UITransition2.ctor (pixels 0 0) (pixels 10 10) (F32.fin (-1)) none)
          false).isPositionTransitioning = false :=
  ⟨by decide,
   ((ctor_finalTime_eq_duration ⟨F32.zero, UnitType.PIXEL⟩ ⟨F32.zero, UnitType.PIXEL⟩
      (pixels 0 0) (pixels 10 10) (F32.fin (-1)) none none id Widget.initial).2.2.2.2
      (by decide)).1⟩

/-- A stored target whose clock is at its duration or past it, kept so by the
update member, is not transitioning after the update: the duration is as
stored and the clock is as stored or back at zero. -/
theorem F32.lt_eq_false_of_kept (cur fin cur1 fin1 : F32) (hfin : fin1 = fin)
    (hcur : cur1 = cur ∨ cur1 = F32.zero) (h : F32.lt cur fin = false)
    (h0 : F32.lt F32.zero fin = false) : F32.lt cur1 fin1 = false := by
  subst hfin
  rcases hcur with rfl | rfl
  · exact h
  · exact h0

/-- C3: a transition built by the default constructor, or by the four-argument
constructor with duration 0, and stored as a widget's target position,
dimensions, min size or max size, is not transitioning as soon as the setter
returns: the corresponding query is false, both when the setter is called with
`update = false`, whatever the update member is, and when it is called with
`update = true` and runs the quantity's `updateTarget...` member. -/
theorem not_transitioning_of_zero_duration (a2 b2 : Length2)
    (f2 : Option (F32v2 → F32v2 → F32 → F32v2)) (upd : Widget → Widget)
    (processRaw : Widget → Length2 → F32v2) (w : Widget) :
    (Widget.setTargetPosition upd w UITransition2.ctorDefault
          false).isPositionTransitioning = false
      ∧ (Widget.setTargetDimensions upd w UITransition2.ctorDefault
          false).isDimensionsTransitioning = false
      ∧ (Widget.setTargetMinSize upd w UITransition2.ctorDefault
          false).isMinSizeTransitioning = false
      ∧ (Widget.setTargetMaxSize upd w UITransition2.ctorDefault
          false).isMaxSizeTransitioning = false
      ∧ (Widget.setTargetPosition upd w (UITransition2.ctor a2 b2 F32.zero f2)
          false).isPositionTransitioning = false
      ∧ (Widget.setTargetDimensions upd w (UITransition2.ctor a2 b2 F32.zero f2)
          false).isDimensionsTransitioning = false
      ∧ (Widget.setTargetMinSize upd w (UITransition2.ctor a2 b2 F32.zero f2)
          false).isMinSizeTransitioning = false
      ∧ (Widget.setTargetMaxSize upd w (UITransition2.ctor a2 b2 F32.zero f2)
          false).isMaxSizeTransitioning = false
      ∧ (Widget.setTargetPosition (Widget.updateTargetPosition processRaw) w UITransition2.ctorDefault
          true).isPositionTransitioning = false
      ∧ (Widget.setTargetDimensions (Widget.updateTargetDimensions processRaw) w UITransition2.ctorDefault
          true).isDimensionsTransitioning = false
      ∧ (Widget.setTargetMinSize (Widget.updateTargetMinSize processRaw) w UITransition2.ctorDefault
          true).isMinSizeTransitioning = false
      ∧ (Widget.setTargetMaxSize (Widget.updateTargetMaxSize processRaw) w UITransition2.ctorDefault
          true).isMaxSizeTransitioning = false
      ∧ (Widget.setTargetPosition (Widget.updateTargetPosition processRaw) w (UITransition2.ctor a2 b2 F32.zero f2)
          true).isPositionTransitioning = false
      ∧ (Widget.setTargetDimensions (Widget.updateTargetDimensions processRaw) w (UITransition2.ctor a2 b2 F32.zero f2)
          true).isDimensionsTransitioning = false
      ∧ (Widget.setTargetMinSize (Widget.updateTargetMinSize processRaw) w (UITransition2.ctor a2 b2 F32.zero f2)
          true).isMinSizeTransitioning = false
      ∧ (Widget.setTargetMaxSize (Widget.updateTargetMaxSize processRaw) w (UITransition2.ctor a2 b2 F32.zero f2)
          true).isMaxSizeTransitioning = false := by
  have h0 : F32.lt F32.zero F32.zero = false := F32.lt_irrefl F32.zero
  exact ⟨h0, h0, h0, h0, h0, h0, h0, h0, h0, h0, h0, h0, h0, h0, h0, h0⟩

/-- C3 at the initial widget, with `update = true` and the update members run on
a root widget whose lengths are in pixels: the default transition and one built
for the duration 0 are stored with clock and duration at zero, and the queries
are false. -/
theorem not_transitioning_of_zero_duration_witness :
    (Widget.setTargetPosition (Widget.updateTargetPosition processRawValuesRoot) Widget.initial
        (UITransition2.ctor (pixels 0 0) (pixels 10 10) F32.zero none)
        true).isPositionTransitioning = false
      ∧ (Widget.setTargetPosition (Widget.updateTargetPosition processRawValuesRoot)
          Widget.initial (UITransition2.ctor (pixels 0 0) (pixels 10 10) F32.zero none)
          true).getTargetPosition.finalLength = ⟨F32.fin 10, F32.fin 10⟩
      ∧ (Widget.setTargetMaxSize id Widget.initial UITransition2.ctorDefault
          false).isMaxSizeTransitioning = false :=
  ⟨(not_transitioning_of_zero_duration (pixels 0 0) (pixels 10 10) none id processRawValuesRoot
      Widget.initial).2.2.2.2.2.2.2.2.2.2.2.2.1,
   by decide,
   (not_transitioning_of_zero_duration (pixels 0 0) (pixels 10 10) none id processRawValuesRoot
      Widget.initial).2.2.2.1⟩

/-- With `update = true` and any update member that leaves the stored target's
duration as it is and its clock as it is or back at zero, a transition of
duration 0 built by a constructor is not reported as transitioning. -/
theorem not_transitioning_after_update_of_kept (t : UITransition2) (upd : Widget → Widget)
    (w : Widget) (ht : t.currentTime = F32.zero) (hd : t.finalTime = F32.zero)
    (hfin : ∀ v : Widget, (upd v).m_targetPosition.finalTime = v.m_targetPosition.finalTime)
    (hcur : ∀ v : Widget,
      (upd v).m_targetPosition.currentTime = v.m_targetPosition.currentTime
        ∨ (upd v).m_targetPosition.currentTime = F32.zero) :
    (Widget.setTargetPosition upd w t true).isPositionTransitioning = false := by
  have h0 : F32.lt F32.zero F32.zero = false := F32.lt_irrefl F32.zero
  show F32.lt (upd { w with m_targetPosition := t }).m_targetPosition.currentTime
    (upd { w with m_targetPosition := t }).m_targetPosition.finalTime = false
  refine F32.lt_eq_false_of_kept t.currentTime t.finalTime _ _ (hfin _) (hcur _) ?_ ?_
  · rw [ht, hd]; exact h0
  · rw [hd]; exact h0

/-- C4: when a quantity's transition has `currentTime >= finalTime`, the
quantity's query returns false. -/
theorem not_transitioning_of_ge (w : Widget) :
    (F32.ge w.getTargetPosition.currentTime w.getTargetPosition.finalTime = true →
        w.isPositionTransitioning = false)
      ∧ (F32.ge w.getTargetDimensions.currentTime w.getTargetDimensions.finalTime = true →
        w.isDimensionsTransitioning = false)
      ∧ (F32.ge w.getTargetMinSize.currentTime w.getTargetMinSize.finalTime = true →
        w.isMinSizeTransitioning = false)
      ∧ (F32.ge w.getTargetMaxSize.currentTime w.getTargetMaxSize.finalTime = true →
        w.isMaxSizeTransitioning = false) :=
  ⟨F32.lt_eq_false_of_ge _ _, F32.lt_eq_false_of_ge _ _, F32.lt_eq_false_of_ge _ _,
   F32.lt_eq_false_of_ge _ _⟩

/-- C4 at a widget whose target position has run its course (`currentTime = 2`,
`finalTime = 2`). -/
theorem not_transitioning_of_ge_witness :
    F32.ge
        (Widget.setTargetPosition id Widget.initial completedTransition
          false).getTargetPosition.currentTime
        (Widget.setTargetPosition id Widget.initial completedTransition
          false).getTargetPosition.finalTime = true
      ∧ (Widget.setTargetPosition id Widget.initial completedTransition
          false).isPositionTransitioning = false :=
  ⟨by decide,
   (not_transitioning_of_ge
      (Widget.setTargetPosition id Widget.initial completedTransition false)).1 (by decide)⟩

/-- C5, as the claim states it, fails: `setTargetPosition` without an update
stores the transition it is given as it is; given one with `currentTime = 1`,
the stored target position has `currentTime = 1`, not `0`. -/
theorem setTarget_keeps_currentTime :
    (Widget.setTargetPosition id Widget.initial midwayTransition
        false).getTargetPosition.currentTime = F32.fin 1
      ∧ (Widget.setTargetDimensions id Widget.initial midwayTransition
        false).getTargetDimensions.currentTime = F32.fin 1
      ∧ (Widget.setTargetMinSize id Widget.initial midwayTransition
        false).getTargetMinSize.currentTime = F32.fin 1
      ∧ (Widget.setTargetMaxSize id Widget.initial midwayTransition
        false).getTargetMaxSize.currentTime = F32.fin 1
      ∧ F32.fin 1 ≠ F32.zero := by
  decide

/-- C5, amended: each of the four setters, called without an update, stores the
transition `t` it is given unchanged, so the stored `currentTime` is that of
`t`; it is `0` for every `t` built by a `UITransition2` constructor. Called
with an update, the setter stores `t` and then runs the quantity's
`updateTarget...` member on the widget. -/
theorem setTarget_stores_argument (updateTarget : Widget → Widget) (w : Widget)
    (t : UITransition2) (a2 b2 : Length2) (d : F32)
    (f2 : Option (F32v2 → F32v2 → F32 → F32v2)) :
    (Widget.setTargetPosition updateTarget w t false).getTargetPosition = t
      ∧ (Widget.setTargetDimensions updateTarget w t false).getTargetDimensions = t
      ∧ (Widget.setTargetMinSize updateTarget w t false).getTargetMinSize = t
      ∧ (Widget.setTargetMaxSize updateTarget w t false).getTargetMaxSize = t
      ∧ (Widget.setTargetPosition updateTarget w (UITransition2.ctor a2 b2 d f2)
          false).getTargetPosition.currentTime = F32.zero
      ∧ (Widget.setTargetDimensions updateTarget w (UITransition2.ctor a2 b2 d f2)
          false).getTargetDimensions.currentTime = F32.zero
      ∧ (Widget.setTargetMinSize updateTarget w (UITransition2.ctor a2 b2 d f2)
          false).getTargetMinSize.currentTime = F32.zero
      ∧ (Widget.setTargetMaxSize updateTarget w (UITransition2.ctor a2 b2 d f2)
          false).getTargetMaxSize.currentTime = F32.zero
      ∧ (Widget.setTargetPosition updateTarget w UITransition2.ctorDefault
          false).getTargetPosition.currentTime = F32.zero
      ∧ (Widget.setTargetDimensions updateTarget w UITransition2.ctorDefault
          false).getTargetDimensions.currentTime = F32.zero
      ∧ (Widget.setTargetMinSize updateTarget w UITransition2.ctorDefault
          false).getTargetMinSize.currentTime = F32.zero
      ∧ (Widget.setTargetMaxSize updateTarget w UITransition2.ctorDefault
          false).getTargetMaxSize.currentTime = F32.zero
      ∧ Widget.setTargetPosition updateTarget w t true
        = updateTarget { w with m_targetPosition := t }
      ∧ Widget.setTargetDimensions updateTarget w t true
        = updateTarget { w with m_targetDimensions := t }
      ∧ Widget.setTargetMinSize updateTarget w t true
        = updateTarget { w with m_targetMinSize := t }
      ∧ Widget.setTargetMaxSize updateTarget w t true
        = updateTarget { w with m_targetMaxSize := t } :=
  ⟨rfl, rfl, rfl, rfl, rfl, rfl, rfl, rfl, rfl, rfl, rfl, rfl, rfl, rfl, rfl, rfl⟩

/-! ## Size bounds -/

theorem F32.le_refl_of_le_left (a b : F32) (h : F32.le a b = true) : F32.le a a = true := by
  cases a <;> cases b <;> simp_all [F32.le]

theorem F32.le_refl_of_le_right (a b : F32) (h : F32.le a b = true) : F32.le b b = true := by
  cases a <;> cases b <;> simp_all [F32.le]

theorem F32.le_of_not_lt (a b : F32) (ha : a.isNaN = false) (hb : b.isNaN = false)
    (h : F32.lt a b = false) : F32.le b a = true := by
  cases a <;> cases b <;> simp_all [F32.le, F32.lt, F32.isNaN]

theorem F32.isNaN_eq_false_of_le_left (a b : F32) (h : F32.le a b = true) :
    a.isNaN = false := by
  cases a <;> cases b <;> simp_all [F32.le, F32.isNaN]

theorem F32.isNaN_eq_false_of_le_right (a b : F32) (h : F32.le a b = true) :
    b.isNaN = false := by
  cases a <;> cases b <;> simp_all [F32.le, F32.isNaN]

/-- The clamp of one component lands between the bounds when the bounds are in
order and the value is a number. -/
theorem Widget.clampComponent_within (d lo hi : F32) (hd : d.isNaN = false)
    (h : F32.le lo hi = true) :
    F32.le lo (Widget.clampComponent d lo hi) = true
      ∧ F32.le (Widget.clampComponent d lo hi) hi = true := by
  have hlo := F32.isNaN_eq_false_of_le_left lo hi h
  have hhi := F32.isNaN_eq_false_of_le_right lo hi h
  unfold Widget.clampComponent
  by_cases h1 : F32.lt d lo = true
  · simp only [h1, if_true]
    exact ⟨F32.le_refl_of_le_left lo hi h, h⟩
  · have h1f : F32.lt d lo = false := by simpa using h1
    by_cases h2 : F32.gt d hi = true
    · simp only [h1f, h2, if_true, Bool.false_eq_true, if_false]
      exact ⟨h, F32.le_refl_of_le_right lo hi h⟩
    · have h2f : F32.gt d hi = false := by simpa using h2
      simp only [h1f, h2f, Bool.false_eq_true, if_false]
      exact ⟨F32.le_of_not_lt d lo hd hlo h1f, F32.le_of_not_lt hi d hhi hd h2f⟩

/-- No dimension lies between a minimum and a maximum that are out of order. -/
theorem F32.not_between_of_lt (d lo hi : F32) (h : F32.lt hi lo = true) :
    (F32.le lo d && F32.le d hi) = false := by
  cases d <;> cases lo <;> cases hi <;> simp_all [F32.le, F32.lt]
  intro h1
  exact lt_of_lt_of_le h h1

/-- C6, as the claim states it, fails: the setters accept a minimum size of
100 by 100 and a maximum size of 50 by 50 on a widget asked for 75 by 75; after
`updateSpatialState` the processed dimensions are 100 by 100, above the
processed maximum. -/
theorem dimensions_outside_inverted_bounds :
    (Widget.updateSpatialState Widget.layoutRoot invertedBoundsWidget).getMinSize
        = ⟨F32.fin 100, F32.fin 100⟩
      ∧ (Widget.updateSpatialState Widget.layoutRoot invertedBoundsWidget).getMaxSize
        = ⟨F32.fin 50, F32.fin 50⟩
      ∧ (Widget.updateSpatialState Widget.layoutRoot invertedBoundsWidget).m_dimensions
        = ⟨F32.fin 100, F32.fin 100⟩
      ∧ (Widget.updateSpatialState Widget.layoutRoot
          invertedBoundsWidget).dimensionsWithinBounds = false := by
  decide

/-- C6, amended: after `updateSpatialState` the processed dimensions satisfy
`minSize <= dimensions <= maxSize` component-wise whenever the processed
minimum is at most the processed maximum component-wise and the unclamped
dimensions are numbers. -/
theorem dimensionsWithinBounds_of_ordered (layout : Widget → F32v2 × F32v2) (w : Widget)
    (hx : F32.le w.getMinSize.x w.getMaxSize.x = true)
    (hy : F32.le w.getMinSize.y w.getMaxSize.y = true)
    (hdx : (layout w).2.x.isNaN = false) (hdy : (layout w).2.y.isNaN = false) :
    (Widget.updateSpatialState layout w).dimensionsWithinBounds = true := by
  have h1 := Widget.clampComponent_within (layout w).2.x w.m_minSize.x w.m_maxSize.x hdx hx
  have h2 := Widget.clampComponent_within (layout w).2.y w.m_minSize.y w.m_maxSize.y hdy hy
  simp [Widget.dimensionsWithinBounds, Widget.updateSpatialState,
    Widget.applyMinMaxSizesToDimensions, h1.1, h1.2, h2.1, h2.2]

/-- The amended C6 at a widget asked for 75 by 75 with minimum 20 by 80 and
maximum 60 by 90: the dimensions come out as 60 by 80. -/
theorem dimensionsWithinBounds_of_ordered_witness :
    (Widget.updateSpatialState Widget.layoutRoot boundedWidget).dimensionsWithinBounds = true
      ∧ (Widget.updateSpatialState Widget.layoutRoot boundedWidget).m_dimensions
        = ⟨F32.fin 60, F32.fin 80⟩ :=
  ⟨dimensionsWithinBounds_of_ordered Widget.layoutRoot boundedWidget (by decide) (by decide)
      (by decide) (by decide),
   by decide⟩

/-! ## The loader -/

/-- The flag `success` after the iteration: it was true before, and every call
of the entry parser returned true. -/
theorem foldl_processEntry_fst {τ : Type} (parse : τ → String → Node → Bool × τ)
    (entries : List (String × Node)) (b : Bool) (s : τ) :
    (entries.foldl (fun acc e => processEntry parse acc e.1 e.2) (b, s)).1
      = (b && succeedsOnEvery parse s entries) := by
  induction entries generalizing b s with
  | nil => simp [succeedsOnEvery]
  | cons e rest ih =>
    cases b with
    | false =>
      have h := ih false s
      simpa [List.foldl, processEntry] using h
    | true =>
      have h := ih (parse s e.1 e.2).1 (parse s e.1 e.2).2
      simpa [List.foldl, processEntry, succeedsOnEvery] using h

/-- What `parseWidgetEntries` returns on a map. -/
theorem parseWidgetEntries_map_isSome {σ ν : Type} (E : EntryParsers σ ν) (kind : WidgetKind)
    (parse : σ → String → Node → Bool × σ) (entries : List (String × Node)) :
    (parseWidgetEntries E kind parse (Node.map entries)).isSome
      = succeedsOnEvery parse (E.init (E.construct kind) "") entries := by
  unfold parseWidgetEntries forAllInMap
  simp only [foldl_processEntry_fst, Bool.true_and]
  cases succeedsOnEvery parse (E.init (E.construct kind) "") entries <;> simp

/-- The class of the widget `parseWidgetEntries` returns. -/
theorem parseWidgetEntries_kind {σ ν : Type} (E : EntryParsers σ ν) (kind : WidgetKind)
    (parse : σ → String → Node → Bool × σ) (node : Node) (w : IWidget σ)
    (h : parseWidgetEntries E kind parse node = some w) : w.kind = kind := by
  unfold parseWidgetEntries at h
  simp only at h
  split at h
  · cases h
    rfl
  · cases h

/-- On a node that is not a map `parseWidget` returns null. -/
theorem parseWidget_not_map {σ ν : Type} (E : EntryParsers σ ν) (type : String) (node : Node)
    (parser : Option (WidgetParser σ)) (h : getType node ≠ NodeType.MAP) :
    parseWidget E type node parser = none := by
  unfold parseWidget
  simp [h]

/-- On a map `parseWidget` is the type table followed by the run of the entry
parser of the class found. -/
theorem parseWidget_map {σ ν : Type} (E : EntryParsers σ ν) (type : String)
    (entries : List (String × Node)) (parser : Option (WidgetParser σ)) :
    parseWidget E type (Node.map entries) parser
      = match kindOfType type with
        | some kind =>
          parseWidgetEntries E kind (E.entryParser kind parser) (Node.map entries)
        | none => none := by
  unfold parseWidget kindOfType widgetTypeNames
  simp only [getType, ne_eq, not_true_eq_false, if_false]
  split_ifs with h1 h2 h3 h4 h5 h6 h7
  · subst h1; rfl
  · subst h2; rfl
  · subst h3; rfl
  · subst h4; rfl
  · subst h5; rfl
  · subst h6; rfl
  · subst h7; rfl
  · have e1 : (type == "button") = false := by simpa using h1
    have e2 : (type == "checkbox") = false := by simpa using h2
    have e3 : (type == "combobox") = false := by simpa using h3
    have e4 : (type == "label") = false := by simpa using h4
    have e5 : (type == "panel") = false := by simpa using h5
    have e6 : (type == "slider") = false := by simpa using h6
    have e7 : (type == "widget_list") = false := by simpa using h7
    simp only [List.lookup, e1, e2, e3, e4, e5, e6, e7]

/-- C7: `loadFromYAML` returns false when the path cannot be resolved, false
when the data read in is empty, and otherwise the result of `parseViewport` on
the first node of the document, with the `widgetParser` functor as parser. -/
theorem loadFromYAML_result {σ ν : Type} (E : EntryParsers σ ν) (getFirst : String → Node)
    (iom : IOManager) (filepath : String) (viewport : ν)
    (customWidgetParser : Option (WidgetParser σ)) :
    (iom.resolvePath filepath = none →
        (loadFromYAML E getFirst iom filepath viewport customWidgetParser).1 = false)
      ∧ (∀ path, iom.resolvePath filepath = some path → iom.readFileToString path "" = "" →
        (loadFromYAML E getFirst iom filepath viewport customWidgetParser).1 = false)
      ∧ (∀ path, iom.resolvePath filepath = some path → iom.readFileToString path "" ≠ "" →
        loadFromYAML E getFirst iom filepath viewport customWidgetParser
          = parseViewport E viewport (getFirst (iom.readFileToString path ""))
              (some (fun type n => (widgetParser E customWidgetParser type n).widget))) := by
  refine ⟨fun h => ?_, fun path h hd => ?_, fun path h hd => ?_⟩
  · simp [loadFromYAML, h]
  · simp [loadFromYAML, h, hd]
  · simp [loadFromYAML, h, hd]

/-- C7 at the sample IO manager: `ui.yml` resolves and is not empty, so the
result is that of `parseViewport`, here true; `other.yml` does not resolve, so
the result is false. -/
theorem loadFromYAML_result_witness :
    (loadFromYAML sampleParsers (fun _ => sampleMap) sampleIOManager "ui.yml" [] none).1 = true
      ∧ (loadFromYAML sampleParsers (fun _ => sampleMap) sampleIOManager "other.yml" []
          none).1 = false :=
  ⟨by
    rw [(loadFromYAML_result sampleParsers (fun _ => sampleMap) sampleIOManager "ui.yml" []
      none).2.2 "/data/ui.yml" (by decide) (by decide)]
    decide,
   (loadFromYAML_result sampleParsers (fun _ => sampleMap) sampleIOManager "other.yml" []
      none).1 (by decide)⟩

/-- C8: `parseWidget` returns a widget exactly when the node is a map, the type
string is one of the seven names, and the entry parser of the class named
succeeds on every entry of the map, run in order on the freshly initialised
widget; the widget returned is of the class the type string names. -/
theorem parseWidget_isSome_iff {σ ν : Type} (E : EntryParsers σ ν) (type : String)
    (node : Node) (parser : Option (WidgetParser σ)) :
    ((parseWidget E type node parser).isSome = true
        ↔ ∃ entries kind, node = Node.map entries ∧ kindOfType type = some kind
            ∧ succeedsOnEvery (E.entryParser kind parser) (E.init (E.construct kind) "")
                entries = true)
      ∧ (∀ w, parseWidget E type node parser = some w → kindOfType type = some w.kind) := by
  constructor
  · constructor
    · intro h
      cases node with
      | map entries =>
        rw [parseWidget_map] at h
        cases hk : kindOfType type with
        | none => simp [hk] at h
        | some kind =>
          simp only [hk] at h
          rw [parseWidgetEntries_map_isSome] at h
          exact ⟨entries, kind, rfl, rfl, h⟩
      | none => simp [parseWidget, getType] at h
      | value text => simp [parseWidget, getType] at h
      | sequence items => simp [parseWidget, getType] at h
    · rintro ⟨entries, kind, rfl, hk, hs⟩
      rw [parseWidget_map]
      simp only [hk]
      rw [parseWidgetEntries_map_isSome]
      exact hs
  · intro w h
    cases node with
    | map entries =>
      rw [parseWidget_map] at h
      cases hk : kindOfType type with
      | none => simp [hk] at h
      | some kind =>
        simp only [hk] at h
        rw [parseWidgetEntries_kind E kind _ _ w h]
    | none => simp [parseWidget, getType] at h
    | value text => simp [parseWidget, getType] at h
    | sequence items => simp [parseWidget, getType] at h

/-- C8 at the type `"button"` and a map of two entries the entry parser
accepts: a widget is returned. -/
theorem parseWidget_isSome_iff_witness :
    (parseWidget sampleParsers "button" sampleMap none).isSome = true :=
  (parseWidget_isSome_iff sampleParsers "button" sampleMap none).1.mpr
    ⟨[("text", Node.value "OK"), ("width", Node.value "40")], WidgetKind.Button, rfl,
      by decide, by decide⟩

/-- C10: `parseViewport` returns false on a node that is not a map; on a map it
returns true exactly when `parseWidgetEntry` succeeds on every entry, run in
order on the viewport; on the empty map it returns true. -/
theorem parseViewport_iff {σ ν : Type} (E : EntryParsers σ ν) (viewport : ν) (node : Node)
    (parser : Option (WidgetParser σ)) :
    (getType node ≠ NodeType.MAP → (parseViewport E viewport node parser).1 = false)
      ∧ (∀ entries, node = Node.map entries →
        ((parseViewport E viewport node parser).1 = true
          ↔ succeedsOnEvery (E.parseWidgetEntry parser) viewport entries = true))
      ∧ (parseViewport E viewport (Node.map []) parser).1 = true := by
  refine ⟨fun h => ?_, fun entries h => ?_, ?_⟩
  · simp [parseViewport, h]
  · subst h
    simp [parseViewport, getType, forAllInMap, foldl_processEntry_fst]
  · simp [parseViewport, getType, forAllInMap]

/-- C10 at a sequence node, where the result is false, and at a map of two
entries the entry parser accepts, where it is true. -/
theorem parseViewport_iff_witness :
    (parseViewport sampleParsers [] (Node.sequence []) none).1 = false
      ∧ (parseViewport sampleParsers [] sampleMap none).1 = true :=
  ⟨(parseViewport_iff sampleParsers [] (Node.sequence []) none).1 (by decide),
   ((parseViewport_iff sampleParsers [] sampleMap none).2.1
      [("text", Node.value "OK"), ("width", Node.value "40")] rfl).mpr (by decide)⟩

/-! ## Deferred apply -/

/-- C11: each of the four `setTarget...` members, called with `update = false`,
replaces the stored target of its own quantity by the transition `t` it is
given and changes no other member: the other three targets, the four raw
values, the processed min and max size and `needsDrawableReload` are as before,
and so are the answers of the other three `is...Transitioning` queries. -/
theorem setTarget_deferred_frame (updateTarget : Widget → Widget) (w : Widget)
    (t : UITransition2) :
    (Widget.setTargetPosition updateTarget w t false).getTargetPosition = t
      ∧ Widget.setTargetPosition updateTarget w t false = { w with m_targetPosition := t }
      ∧ (Widget.setTargetPosition updateTarget w t false).getTargetDimensions = w.getTargetDimensions
      ∧ (Widget.setTargetPosition updateTarget w t false).getTargetMinSize = w.getTargetMinSize
      ∧ (Widget.setTargetPosition updateTarget w t false).getTargetMaxSize = w.getTargetMaxSize
      ∧ (Widget.setTargetPosition updateTarget w t false).getRawPosition = w.getRawPosition
      ∧ (Widget.setTargetPosition updateTarget w t false).getRawDimensions = w.getRawDimensions
      ∧ (Widget.setTargetPosition updateTarget w t false).getRawMinSize = w.getRawMinSize
      ∧ (Widget.setTargetPosition updateTarget w t false).getRawMaxSize = w.getRawMaxSize
      ∧ (Widget.setTargetPosition updateTarget w t false).getMinSize = w.getMinSize
      ∧ (Widget.setTargetPosition updateTarget w t false).getMaxSize = w.getMaxSize
      ∧ (Widget.setTargetPosition updateTarget w t false).needsDrawableReload = w.needsDrawableReload
      ∧ (Widget.setTargetPosition updateTarget w t false).isDimensionsTransitioning = w.isDimensionsTransitioning
      ∧ (Widget.setTargetPosition updateTarget w t false).isMinSizeTransitioning = w.isMinSizeTransitioning
      ∧ (Widget.setTargetPosition updateTarget w t false).isMaxSizeTransitioning = w.isMaxSizeTransitioning
      ∧ (Widget.setTargetDimensions updateTarget w t false).getTargetDimensions = t
      ∧ Widget.setTargetDimensions updateTarget w t false = { w with m_targetDimensions := t }
      ∧ (Widget.setTargetDimensions updateTarget w t false).getTargetPosition = w.getTargetPosition
      ∧ (Widget.setTargetDimensions updateTarget w t false).getTargetMinSize = w.getTargetMinSize
      ∧ (Widget.setTargetDimensions updateTarget w t false).getTargetMaxSize = w.getTargetMaxSize
      ∧ (Widget.setTargetDimensions updateTarget w t false).getRawPosition = w.getRawPosition
      ∧ (Widget.setTargetDimensions updateTarget w t false).getRawDimensions = w.getRawDimensions
      ∧ (Widget.setTargetDimensions updateTarget w t false).getRawMinSize = w.getRawMinSize
      ∧ (Widget.setTargetDimensions updateTarget w t false).getRawMaxSize = w.getRawMaxSize
      ∧ (Widget.setTargetDimensions updateTarget w t false).getMinSize = w.getMinSize
      ∧ (Widget.setTargetDimensions updateTarget w t false).getMaxSize = w.getMaxSize
      ∧ (Widget.setTargetDimensions updateTarget w t false).needsDrawableReload = w.needsDrawableReload
      ∧ (Widget.setTargetDimensions updateTarget w t false).isPositionTransitioning = w.isPositionTransitioning
      ∧ (Widget.setTargetDimensions updateTarget w t false).isMinSizeTransitioning = w.isMinSizeTransitioning
      ∧ (Widget.setTargetDimensions updateTarget w t false).isMaxSizeTransitioning = w.isMaxSizeTransitioning
      ∧ (Widget.setTargetMinSize updateTarget w t false).getTargetMinSize = t
      ∧ Widget.setTargetMinSize updateTarget w t false = { w with m_targetMinSize := t }
      ∧ (Widget.setTargetMinSize updateTarget w t false).getTargetPosition = w.getTargetPosition
      ∧ (Widget.setTargetMinSize updateTarget w t false).getTargetDimensions = w.getTargetDimensions
      ∧ (Widget.setTargetMinSize updateTarget w t false).getTargetMaxSize = w.getTargetMaxSize
      ∧ (Widget.setTargetMinSize updateTarget w t false).getRawPosition = w.getRawPosition
      ∧ (Widget.setTargetMinSize updateTarget w t false).getRawDimensions = w.getRawDimensions
      ∧ (Widget.setTargetMinSize updateTarget w t false).getRawMinSize = w.getRawMinSize
      ∧ (Widget.setTargetMinSize updateTarget w t false).getRawMaxSize = w.getRawMaxSize
      ∧ (Widget.setTargetMinSize updateTarget w t false).getMinSize = w.getMinSize
      ∧ (Widget.setTargetMinSize updateTarget w t false).getMaxSize = w.getMaxSize
      ∧ (Widget.setTargetMinSize updateTarget w t false).needsDrawableReload = w.needsDrawableReload
      ∧ (Widget.setTargetMinSize updateTarget w t false).isPositionTransitioning = w.isPositionTransitioning
      ∧ (Widget.setTargetMinSize updateTarget w t false).isDimensionsTransitioning = w.isDimensionsTransitioning
      ∧ (Widget.setTargetMinSize updateTarget w t false).isMaxSizeTransitioning = w.isMaxSizeTransitioning
      ∧ (Widget.setTargetMaxSize updateTarget w t false).getTargetMaxSize = t
      ∧ Widget.setTargetMaxSize updateTarget w t false = { w with m_targetMaxSize := t }
      ∧ (Widget.setTargetMaxSize updateTarget w t false).getTargetPosition = w.getTargetPosition
      ∧ (Widget.setTargetMaxSize updateTarget w t false).getTargetDimensions = w.getTargetDimensions
      ∧ (Widget.setTargetMaxSize updateTarget w t false).getTargetMinSize = w.getTargetMinSize
      ∧ (Widget.setTargetMaxSize updateTarget w t false).getRawPosition = w.getRawPosition
      ∧ (Widget.setTargetMaxSize updateTarget w t false).getRawDimensions = w.getRawDimensions
      ∧ (Widget.setTargetMaxSize updateTarget w t false).getRawMinSize = w.getRawMinSize
      ∧ (Widget.setTargetMaxSize updateTarget w t false).getRawMaxSize = w.getRawMaxSize
      ∧ (Widget.setTargetMaxSize updateTarget w t false).getMinSize = w.getMinSize
      ∧ (Widget.setTargetMaxSize updateTarget w t false).getMaxSize = w.getMaxSize
      ∧ (Widget.setTargetMaxSize updateTarget w t false).needsDrawableReload = w.needsDrawableReload
      ∧ (Widget.setTargetMaxSize updateTarget w t false).isPositionTransitioning = w.isPositionTransitioning
      ∧ (Widget.setTargetMaxSize updateTarget w t false).isDimensionsTransitioning = w.isDimensionsTransitioning
      ∧ (Widget.setTargetMaxSize updateTarget w t false).isMinSizeTransitioning = w.isMinSizeTransitioning :=
  ⟨rfl, rfl, rfl, rfl, rfl, rfl, rfl, rfl, rfl, rfl, rfl, rfl, rfl, rfl, rfl, rfl, rfl,
   rfl, rfl, rfl, rfl, rfl, rfl, rfl, rfl, rfl, rfl, rfl, rfl, rfl, rfl, rfl, rfl, rfl,
   rfl, rfl, rfl, rfl, rfl, rfl, rfl, rfl, rfl, rfl, rfl, rfl, rfl, rfl, rfl, rfl, rfl,
   rfl, rfl, rfl, rfl, rfl, rfl, rfl, rfl, rfl⟩

/-- C11 at a widget whose dimensions are in transition: a new target position
stored without an update is returned by `getTargetPosition`, and the dimensions
are still reported as transitioning, the min and max size still as at rest. -/
theorem setTarget_deferred_frame_witness :
    resizingWidget.isDimensionsTransitioning = true
      ∧ (Widget.setTargetPosition id resizingWidget freshTransition
          false).isDimensionsTransitioning = true
      ∧ (Widget.setTargetPosition id resizingWidget freshTransition
          false).isMinSizeTransitioning = false
      ∧ (Widget.setTargetPosition id resizingWidget freshTransition
          false).getTargetPosition.finalTime = F32.fin 5 :=
  ⟨by decide,
   ((setTarget_deferred_frame id resizingWidget freshTransition).2.2.2.2.2.2.2.2.2.2.2.2.1).trans
      (by decide),
   by decide,
   congrArg UITransition2.finalTime (setTarget_deferred_frame id resizingWidget freshTransition).1⟩

/-! ## Short-circuit of the entry parsing -/

/-- Once `success` is false the iteration changes nothing. -/
theorem foldl_processEntry_of_false {τ : Type} (parse : τ → String → Node → Bool × τ)
    (entries : List (String × Node)) (s : τ) :
    entries.foldl (fun acc e => processEntry parse acc e.1 e.2) (false, s) = (false, s) := by
  induction entries with
  | nil => rfl
  | cons e rest ih => simpa [List.foldl, processEntry] using ih

/-- The entries after a failing run of entries do not change the outcome of the
iteration. -/
theorem foldl_processEntry_append_of_fails {τ : Type} (parse : τ → String → Node → Bool × τ)
    (front back : List (String × Node)) (s : τ)
    (h : succeedsOnEvery parse s front = false) :
    (front ++ back).foldl (fun acc e => processEntry parse acc e.1 e.2) (true, s)
      = front.foldl (fun acc e => processEntry parse acc e.1 e.2) (true, s) := by
  rw [List.foldl_append]
  have hf := foldl_processEntry_fst parse front true s
  rw [h] at hf
  have hpair : front.foldl (fun acc e => processEntry parse acc e.1 e.2) (true, s)
      = (false, (front.foldl (fun acc e => processEntry parse acc e.1 e.2) (true, s)).2) := by
    apply Prod.ext
    · simpa using hf
    · rfl
  rw [hpair]
  exact foldl_processEntry_of_false parse back _

/-- A run of entries that fails still fails with more entries after it. -/
theorem succeedsOnEvery_append_of_fails {τ : Type} (parse : τ → String → Node → Bool × τ)
    (front back : List (String × Node)) (s : τ)
    (h : succeedsOnEvery parse s front = false) :
    succeedsOnEvery parse s (front ++ back) = false := by
  have h1 := foldl_processEntry_fst parse (front ++ back) true s
  have h2 := foldl_processEntry_fst parse front true s
  rw [foldl_processEntry_append_of_fails parse front back s h, h2, h] at h1
  simpa using h1.symm

/-- Calling the parser on each entry of a list in two parts is calling it on each
entry of the first part, then on each of the second. -/
theorem calledOnEach_append {τ : Type} (parse : τ → String → Node → Bool × τ)
    (front back : List (String × Node)) (s : τ) :
    calledOnEach parse s (front ++ back)
      = calledOnEach parse (calledOnEach parse s front) back := by
  induction front generalizing s with
  | nil => rfl
  | cons e rest ih => simpa [calledOnEach] using ih (parse s e.1 e.2).2

/-- While every call succeeds the iteration calls the parser on each entry. -/
theorem foldl_processEntry_of_succeeds {τ : Type} (parse : τ → String → Node → Bool × τ)
    (entries : List (String × Node)) (s : τ) (h : succeedsOnEvery parse s entries = true) :
    entries.foldl (fun acc e => processEntry parse acc e.1 e.2) (true, s)
      = (true, calledOnEach parse s entries) := by
  induction entries generalizing s with
  | nil => rfl
  | cons e rest ih =>
    simp only [succeedsOnEvery, Bool.and_eq_true] at h
    have h2 := ih (parse s e.1 e.2).2 h.2
    have hstep : processEntry parse (true, s) e.1 e.2 = (true, (parse s e.1 e.2).2) := by
      apply Prod.ext
      · simpa [processEntry] using h.1
      · simp [processEntry]
    simp only [List.foldl, hstep, calledOnEach]
    exact h2

/-- The iteration over a map whose entry `e`, after the entries `front`, is the
first the parser rejects: `success` ends false, and the object is as the calls
on `front` and then on `e` leave it. -/
theorem foldl_processEntry_first_failure {τ : Type} (parse : τ → String → Node → Bool × τ)
    (front back : List (String × Node)) (e : String × Node) (s : τ)
    (hfront : succeedsOnEvery parse s front = true)
    (he : succeedsOnEvery parse s (front ++ [e]) = false) :
    (front ++ e :: back).foldl (fun acc e => processEntry parse acc e.1 e.2) (true, s)
      = (false, calledOnEach parse s (front ++ [e])) := by
  have hsplit : front ++ e :: back = (front ++ [e]) ++ back := by simp
  rw [hsplit, foldl_processEntry_append_of_fails parse (front ++ [e]) back s he]
  have hflag := foldl_processEntry_fst parse (front ++ [e]) true s
  rw [he] at hflag
  apply Prod.ext
  · simpa using hflag
  · rw [List.foldl_append, foldl_processEntry_of_succeeds parse front s hfront,
      calledOnEach_append]
    simp [List.foldl, processEntry, calledOnEach]

/-- When each call of the parser adds its key and value to a list read off the
object, calling the parser on each entry adds the entries. -/
theorem calls_calledOnEach {τ : Type} (parse : τ → String → Node → Bool × τ)
    (calls : τ → List (String × Node))
    (h : ∀ st key value, calls (parse st key value).2 = calls st ++ [(key, value)])
    (entries : List (String × Node)) (s : τ) :
    calls (calledOnEach parse s entries) = calls s ++ entries := by
  induction entries generalizing s with
  | nil => simp [calledOnEach]
  | cons e rest ih =>
    simp only [calledOnEach]
    rw [ih, h]
    simp

/-- On a map `Effects.parseWidget` is the type table followed by the run of the
entry parser of the class found. -/
theorem parseWidget_map_world {ω σ : Type} (E : Effects.EntryParsers ω σ) (type : String)
    (entries : List (String × Node)) (parser : Option (Effects.WidgetParser ω σ))
    (world : ω) :
    Effects.parseWidget E type (Node.map entries) parser world
      = match kindOfType type with
        | some kind =>
          Effects.parseWidgetEntries E kind (E.entryParser kind parser) (Node.map entries)
            world
        | none => (none, world) := by
  unfold Effects.parseWidget kindOfType widgetTypeNames
  simp only [getType, ne_eq, not_true_eq_false, if_false]
  split_ifs with h1 h2 h3 h4 h5 h6 h7
  · subst h1; rfl
  · subst h2; rfl
  · subst h3; rfl
  · subst h4; rfl
  · subst h5; rfl
  · subst h6; rfl
  · subst h7; rfl
  · have e1 : (type == "button") = false := by simpa using h1
    have e2 : (type == "checkbox") = false := by simpa using h2
    have e3 : (type == "combobox") = false := by simpa using h3
    have e4 : (type == "label") = false := by simpa using h4
    have e5 : (type == "panel") = false := by simpa using h5
    have e6 : (type == "slider") = false := by simpa using h6
    have e7 : (type == "widget_list") = false := by simpa using h7
    simp only [List.lookup, e1, e2, e3, e4, e5, e6, e7]

/-- What `Effects.parseWidgetEntries` returns on a map whose entry `e`, after the
entries `front`, is the first the parser rejects. -/
theorem parseWidgetEntries_first_failure {ω σ : Type} (E : Effects.EntryParsers ω σ)
    (kind : WidgetKind) (parse : σ × ω → String → Node → Bool × (σ × ω))
    (front back : List (String × Node)) (e : String × Node) (world : ω)
    (hfront : succeedsOnEvery parse (E.init (E.construct kind) "", world) front = true)
    (he : succeedsOnEvery parse (E.init (E.construct kind) "", world) (front ++ [e]) = false) :
    Effects.parseWidgetEntries E kind parse (Node.map (front ++ e :: back)) world
      = (none, (calledOnEach parse (E.init (E.construct kind) "", world) (front ++ [e])).2) := by
  unfold Effects.parseWidgetEntries forAllInMap
  simp only [foldl_processEntry_first_failure parse front back e _ hfront he]
  rfl

/-- C12: in `parseWidget`, and in `parseViewport`, when entry `e` of the map,
coming after the entries `front`, is the first the entry parser rejects, the
result is null, or false, whatever the entries `back` that follow hold, and
what the call leaves behind (the world for `parseWidget`, the viewport for
`parseViewport`) is what calling the entry parser on the entries `front` and
then on `e`, in this order, leaves. So for every entry parser that adds each
call it receives, key and value, to a list kept there, the call adds exactly
`front` followed by `e`: the parser is invoked on entries 1 to k and on no
later entry. -/
theorem entry_parsing_short_circuits {ω σ τ ν : Type} (E : Effects.EntryParsers ω σ)
    (P : EntryParsers τ ν) (type : String) (kind : WidgetKind)
    (parser : Option (Effects.WidgetParser ω σ)) (viewportParser : Option (WidgetParser τ))
    (world : ω) (viewport : ν) (front back : List (String × Node)) (e : String × Node) :
    (kindOfType type = some kind →
        succeedsOnEvery (E.entryParser kind parser) (E.init (E.construct kind) "", world) front
          = true →
        succeedsOnEvery (E.entryParser kind parser) (E.init (E.construct kind) "", world)
          (front ++ [e]) = false →
        Effects.parseWidget E type (Node.map (front ++ e :: back)) parser world
            = (none,
                (calledOnEach (E.entryParser kind parser) (E.init (E.construct kind) "", world)
                  (front ++ [e])).2)
          ∧ ∀ calls : ω → List (String × Node),
              (∀ st key value,
                calls (E.entryParser kind parser st key value).2.2
                  = calls st.2 ++ [(key, value)]) →
              calls (Effects.parseWidget E type (Node.map (front ++ e :: back)) parser
                  world).2
                = calls world ++ (front ++ [e]))
      ∧ (succeedsOnEvery (P.parseWidgetEntry viewportParser) viewport front = true →
        succeedsOnEvery (P.parseWidgetEntry viewportParser) viewport (front ++ [e]) = false →
        parseViewport P viewport (Node.map (front ++ e :: back)) viewportParser
            = (false, calledOnEach (P.parseWidgetEntry viewportParser) viewport (front ++ [e]))
          ∧ ∀ calls : ν → List (String × Node),
              (∀ st key value,
                calls (P.parseWidgetEntry viewportParser st key value).2
                  = calls st ++ [(key, value)]) →
              calls (parseViewport P viewport (Node.map (front ++ e :: back))
                  viewportParser).2
                = calls viewport ++ (front ++ [e])) := by
  constructor
  · intro hk hfront he
    have hres : Effects.parseWidget E type (Node.map (front ++ e :: back)) parser world
        = (none,
            (calledOnEach (E.entryParser kind parser) (E.init (E.construct kind) "", world)
              (front ++ [e])).2) := by
      rw [parseWidget_map_world]
      simp only [hk]
      exact parseWidgetEntries_first_failure E kind _ front back e world hfront he
    refine ⟨hres, fun calls hcalls => ?_⟩
    rw [hres]
    exact calls_calledOnEach (E.entryParser kind parser) (fun st => calls st.2) hcalls
      (front ++ [e]) (E.init (E.construct kind) "", world)
  · intro hfront he
    have hres : parseViewport P viewport (Node.map (front ++ e :: back)) viewportParser
        = (false, calledOnEach (P.parseWidgetEntry viewportParser) viewport (front ++ [e])) := by
      simp only [parseViewport, getType, ne_eq, not_true_eq_false, if_false, forAllInMap]
      exact foldl_processEntry_first_failure _ front back e viewport hfront he
    refine ⟨hres, fun calls hcalls => ?_⟩
    rw [hres]
    exact calls_calledOnEach (P.parseWidgetEntry viewportParser) calls hcalls (front ++ [e])
      viewport

/-- C12 at a map of three entries whose second the entry parser rejects, with
entry parsers that write each call they receive: after `parseWidget`, which
returns null, and after `parseViewport`, which returns false, the calls written
are the first two entries. -/
theorem entry_parsing_short_circuits_witness :
    Effects.parseWidget callWritingParsers "button" rejectedMap none []
        = (none, [("text", Node.value "OK"), ("bad", Node.value "?")])
      ∧ parseViewport viewportWritingParsers [] rejectedMap none
        = (false, [("text", Node.value "OK"), ("bad", Node.value "?")])
      ∧ (Effects.parseWidget callWritingParsers "button" rejectedMap none
          [("earlier", Node.none)]).2
        = [("earlier", Node.none), ("text", Node.value "OK"), ("bad", Node.value "?")] :=
  ⟨((entry_parsing_short_circuits callWritingParsers viewportWritingParsers "button"
      WidgetKind.Button none none [] [] [("text", Node.value "OK")]
      [("width", Node.value "40")] ("bad", Node.value "?")).1
      (by decide) (by decide) (by decide)).1,
   ((entry_parsing_short_circuits callWritingParsers viewportWritingParsers "button"
      WidgetKind.Button none none [] [] [("text", Node.value "OK")]
      [("width", Node.value "40")] ("bad", Node.value "?")).2
      (by decide) (by decide)).1,
   ((entry_parsing_short_circuits callWritingParsers viewportWritingParsers "button"
      WidgetKind.Button none none [("earlier", Node.none)] [] [("text", Node.value "OK")]
      [("width", Node.value "40")] ("bad", Node.value "?")).1
      (by decide) (by decide) (by decide)).2 id (fun _ _ _ => rfl)⟩

/-- Turning a parser without effects into one with effects and back gives the
parser. -/
theorem lowerParser_liftParser {σ : Type} (parser : Option (WidgetParser σ)) :
    (parser.map liftParser).map lowerParser = parser := by
  cases parser with
  | none => rfl
  | some p => rfl

/-- The iteration with an entry parser without effects, taken on the world with
a single state, is the iteration without the world. -/
theorem foldl_processEntry_lift {σ : Type}
    (parse : Option (WidgetParser σ) → σ → String → Node → Bool × σ)
    (parser : Option (WidgetParser σ)) (entries : List (String × Node)) (b : Bool) (s : σ) :
    entries.foldl
        (fun acc e =>
          processEntry (liftEntryParser parse (parser.map liftParser)) acc
            e.1 e.2)
        (b, (s, ()))
      = ((entries.foldl (fun acc e => processEntry (parse parser) acc e.1 e.2) (b, s)).1,
          ((entries.foldl (fun acc e => processEntry (parse parser) acc e.1 e.2) (b, s)).2,
            ())) := by
  induction entries generalizing b s with
  | nil => rfl
  | cons e rest ih =>
    cases b with
    | false =>
      have h := ih false s
      simpa [List.foldl, processEntry] using h
    | true =>
      have h := ih (parse parser s e.1 e.2).1 (parse parser s e.1 e.2).2
      have hp : Option.map (lowerParser ∘ liftParser) parser = parser := by
        cases parser <;> rfl
      simpa [List.foldl, processEntry, liftEntryParser, lowerParser_liftParser, hp] using h

/-- With collaborators that have no effects, `Effects.parseWidgetEntries`
returns the widget of `parseWidgetEntries`. -/
theorem parseWidgetEntries_lift {σ ν : Type} (P : EntryParsers σ ν) (kind : WidgetKind)
    (parse : Option (WidgetParser σ) → σ → String → Node → Bool × σ)
    (parser : Option (WidgetParser σ)) (node : Node) :
    (Effects.parseWidgetEntries (liftParsers P) kind
        (liftEntryParser parse (parser.map liftParser)) node ()).1
      = parseWidgetEntries P kind (parse parser) node := by
  cases node with
  | map entries =>
    unfold Effects.parseWidgetEntries parseWidgetEntries forAllInMap
    simp only [liftParsers, foldl_processEntry_lift]
    split <;> rfl
  | none => rfl
  | value text => rfl
  | sequence items => rfl

/-- With collaborators that have no effects, `Effects.parseWidget` returns the
widget of `parseWidget`. -/
theorem parseWidget_lift {σ ν : Type} (P : EntryParsers σ ν) (type : String) (node : Node)
    (parser : Option (WidgetParser σ)) :
    (Effects.parseWidget (liftParsers P) type node (parser.map liftParser) ()).1
      = parseWidget P type node parser := by
  unfold Effects.parseWidget parseWidget
  split_ifs
  · rfl
  · exact parseWidgetEntries_lift P WidgetKind.Button P.parseButtonEntry parser node
  · exact parseWidgetEntries_lift P WidgetKind.CheckBox P.parseCheckBoxEntry parser node
  · exact parseWidgetEntries_lift P WidgetKind.ComboBox P.parseComboBoxEntry parser node
  · exact parseWidgetEntries_lift P WidgetKind.Label P.parseLabelEntry parser node
  · exact parseWidgetEntries_lift P WidgetKind.Panel P.parsePanelEntry parser node
  · exact parseWidgetEntries_lift P WidgetKind.Slider P.parseSliderEntry parser node
  · exact parseWidgetEntries_lift P WidgetKind.WidgetList P.parseWidgetListEntry parser node
  · rfl

/-- With collaborators that have no effects, the functor with the world returns
the widget of the functor without it. -/
theorem widgetParser_lift {σ ν : Type} (P : EntryParsers σ ν)
    (customWidgetParser : Option (WidgetParser σ)) (type : String) (node : Node) :
    (Effects.widgetParser (liftParsers P) (customWidgetParser.map liftParser) type
        node ()).1
      = (widgetParser P customWidgetParser type node).widget := by
  have h := parseWidget_lift P type node customWidgetParser
  unfold Effects.widgetParser widgetParser
  rw [← h]
  cases hp : Effects.parseWidget (liftParsers P) type node
      (customWidgetParser.map liftParser) () with
  | mk found world1 =>
    cases found with
    | some widget => rfl
    | none =>
      cases customWidgetParser with
      | none => rfl
      | some custom => rfl

end Vorb
